import Mathlib

/-!
# VISION AI — shallow embedding and verification of the command pipeline

This file embeds, in Lean 4, the parts of the VISION AI repository that the
specification claims talk about:

* `safety_guard.py` — protected-path checking and file-operation validation,
* `smart_template_matcher.py` — template matching with chained-command splitting,
* `fast_complex_handler.py` — the tri-state fast multi-step handler,
* `vision_ai.py` (`process_command`) — the interpretation-tier cascade,
* `action_executor.py` (`execute_plan`) — best-effort sequential plan execution,
* `context_manager.py` — surface context state, freshness, history,
* `llm_controller.py` — LLM output extraction and JSON parsing.

Python strings are modelled as Lean `String`s (operated on through their
character lists), Python `None`-able values as `Option`, Python exceptions of
collaborator calls as explicit outcome oracles, and wall-clock time as an
integer parameter threaded through the context-manager operations.  The
relevant pieces of the Python standard library that the source calls
(`os.path.abspath` for Windows, `str` methods, `re` matching for the exact
regexes appearing in the source, `json.loads` restricted to the JSON subset
the claims exercise — integer numerals, strings, arrays, objects, booleans,
null) are modelled explicitly below.  All definitions are executable and
fuel-based where recursion is not structural, so concrete runs reduce by
`decide`/`rfl`.
-/

/-! ## Python string primitives (on `List Char`) -/

/-- Python `\s` character class (ASCII whitespace as used by `re` and `str.strip`). -/
def pySpaceChar (c : Char) : Bool :=
  c == ' ' || c == '\t' || c == '\n' || c == '\r' || c == '\x0b' || c == '\x0c'

/-- Python `\w` character class restricted to ASCII (the matched commands are
lower-cased ASCII text). -/
def pyWordChar (c : Char) : Bool :=
  c.isAlphanum || c == '_'

/-- Python `str.lower` (ASCII). -/
def pyLower (s : List Char) : List Char := s.map Char.toLower

/-- Python `str.strip()`. -/
def pyStrip (s : List Char) : List Char :=
  ((s.dropWhile pySpaceChar).reverse.dropWhile pySpaceChar).reverse

/-- `listHasPfx pat s` is true when `pat` is a prefix of `s`
(Python `s.startswith(pat)`). -/
def listHasPfx : List Char → List Char → Bool
  | [], _ => true
  | _ :: _, [] => false
  | p :: ps, c :: cs => p == c && listHasPfx ps cs

/-- Python `pat in s` (substring containment). -/
def pyContains (pat : List Char) : List Char → Bool
  | [] => pat.isEmpty
  | c :: rest => listHasPfx pat (c :: rest) || pyContains pat rest

/-- Python `s.find(pat)`: index of the first occurrence (`none` models `-1`). -/
def pyFindAux (pat : List Char) : List Char → Nat → Option Nat
  | [], i => if pat.isEmpty then some i else none
  | c :: rest, i =>
    if listHasPfx pat (c :: rest) then some i else pyFindAux pat rest (i + 1)

/-- Python `s.find(pat)`. -/
def pyFind (pat s : List Char) : Option Nat := pyFindAux pat s 0

/-- Python `s.rfind(pat)`: index of the last occurrence (`none` models `-1`). -/
def pyRfindAux (pat : List Char) : List Char → Nat → Option Nat → Option Nat
  | [], i, acc => if pat.isEmpty then some i else acc
  | c :: rest, i, acc =>
    pyRfindAux pat rest (i + 1)
      (if listHasPfx pat (c :: rest) then some i else acc)

/-- Python `s.rfind(pat)`. -/
def pyRfind (pat s : List Char) : Option Nat := pyRfindAux pat s 0 none

/-- Python slice `s[a:b]` for non-negative bounds. -/
def pySlice (s : List Char) (a b : Nat) : List Char := (s.drop a).take (b - a)

/-- Python `str.split(sep)` for a non-empty separator (fuel-based so that it
reduces in the kernel; the fuel `s.length + 1` always suffices because every
recursive call consumes at least one character). -/
def pySplitAux (sep : List Char) : Nat → List Char → List Char → List (List Char)
  | 0, _, acc => [acc.reverse]
  | _ + 1, [], acc => [acc.reverse]
  | fuel + 1, c :: rest, acc =>
    if !sep.isEmpty && listHasPfx sep (c :: rest) then
      acc.reverse :: pySplitAux sep fuel ((c :: rest).drop sep.length) []
    else
      pySplitAux sep fuel rest (c :: acc)

/-- Python `s.split(sep)`. -/
def pySplitOn (s sep : List Char) : List (List Char) :=
  pySplitAux sep (s.length + 1) s []

/-! ## Windows path model (`ntpath`: `splitdrive`, `join`, `normpath`, `abspath`)

`safety_guard.py` resolves paths with `os.path.abspath`; the program targets
Windows (it uses `winsound`, `os.startfile`, drive letters), so the `ntpath`
pure-Python semantics are modelled for drive-letter and relative paths. -/

/-- A Windows path separator. -/
def ntSepChar (c : Char) : Bool := c == '\\' || c == '/'

/-- `ntpath.splitdrive` for drive-letter paths. -/
def ntSplitDrive (p : List Char) : List Char × List Char :=
  match p with
  | a :: b :: rest => if b == ':' then ([a, ':'], rest) else ([], p)
  | _ => ([], p)

/-- `ntpath.isabs`. -/
def ntIsAbs (p : List Char) : Bool :=
  match (ntSplitDrive p).2 with
  | c :: _ => ntSepChar c
  | [] => false

/-- `ntpath.join` for two arguments (faithful to the CPython branch structure). -/
def ntJoin (path p : List Char) : List Char :=
  let rd := (ntSplitDrive path).1
  let rp := (ntSplitDrive path).2
  let pd := (ntSplitDrive p).1
  let pp := (ntSplitDrive p).2
  let concatRel : List Char → List Char → List Char := fun base tail =>
    match base.getLast? with
    | some c => if ntSepChar c then base ++ tail else base ++ '\\' :: tail
    | none => tail
  if (match pp with | c :: _ => ntSepChar c | [] => false) then
    -- second path is rooted
    (if !pd.isEmpty || rd.isEmpty then pd else rd) ++ pp
  else if !pd.isEmpty && pd ≠ rd then
    if pyLower pd ≠ pyLower rd then
      -- different drive: ignore the first path entirely
      pd ++ pp
    else
      -- same drive in a different case
      pd ++ concatRel rp pp
  else
    rd ++ concatRel rp pp

/-- The component-collapsing loop of `ntpath.normpath` (`''`/`.` removed, `..`
resolved against the accumulated components). -/
def ntNormComps (rooted : Bool) : List (List Char) → List (List Char) → List (List Char)
  | acc, [] => acc.reverse
  | acc, c :: rest =>
    if c.isEmpty || c == ['.'] then ntNormComps rooted acc rest
    else if c == ['.', '.'] then
      match acc with
      | a :: acc2 =>
        if a == ['.', '.'] then ntNormComps rooted (c :: a :: acc2) rest
        else ntNormComps rooted acc2 rest
      | [] =>
        if rooted then ntNormComps rooted [] rest
        else ntNormComps rooted [c] rest
    else ntNormComps rooted (c :: acc) rest

/-- Join path components with `'\\'`. -/
def ntJoinComps : List (List Char) → List Char
  | [] => []
  | [c] => c
  | c :: rest => c ++ '\\' :: ntJoinComps rest

/-- `ntpath.normpath` for drive-letter paths. -/
def ntNormPath (p : List Char) : List Char :=
  let p := p.map (fun c => if c == '/' then '\\' else c)
  let d := (ntSplitDrive p).1
  let rest := (ntSplitDrive p).2
  let rooted := match rest with | c :: _ => c == '\\' | [] => false
  let rest := if rooted then rest.dropWhile (· == '\\') else rest
  let comps := ntNormComps rooted [] (pySplitOn rest ['\\'])
  let pfx := d ++ (if rooted then ['\\'] else [])
  if pfx.isEmpty && comps.isEmpty then ['.']
  else pfx ++ ntJoinComps comps

/-- `ntpath.abspath` (pure-Python fallback semantics), with the process working
directory passed explicitly. -/
def ntAbsPath (cwd p : List Char) : List Char :=
  if ntIsAbs p then ntNormPath p else ntNormPath (ntJoin cwd p)

/-! ## `safety_guard.py` — `SafetyGuard` -/

/-- `SafetyGuard.PROTECTED_PATHS`: the class-level protected set.  The Python
source writes these as raw strings (`r"C:\\Windows"`), so each entry contains a
doubled backslash exactly as in the source. -/
def PROTECTED_PATHS : List String :=
  ["C:\\\\Windows",
   "C:\\\\Program Files",
   "C:\\\\Program Files (x86)",
   "C:\\\\ProgramData\\\\Microsoft",
   "C:\\\\System32",
   "C:\\\\$"]

/-- `SafetyGuard.is_path_protected`.  `prot` is the instance's protected-path
list (`PROTECTED_PATHS`, possibly extended with the `USERPROFILE` entries in
`__init__`), `cwd` the process working directory used by `os.path.abspath`. -/
def is_path_protected (prot : List String) (cwd : String) (path : String) :
    Bool × Option String :=
  if path = "" then (false, none)
  else
    let absPath := ntAbsPath cwd.data path.data
    match prot.find? (fun pr => listHasPfx (ntAbsPath cwd.data pr.data) absPath) with
    | some pr => (true, some pr)
    | none => (false, none)

/-- The `common_system` list inside `SafetyGuard.validate_file_operation`. -/
def commonSystemDirs : List String :=
  ["windows", "program files", "program files (x86)", "programdata"]

/-- The second check in `SafetyGuard.validate_file_operation`: the original
path starts (lower-cased) with `c:\` and splits on `\` into at most two
segments, and some well-known system folder name occurs in it. -/
def sysRootBlock (operation path : String) : Option String :=
  if listHasPfx "c:\\".data (pyLower path.data)
      && (pySplitOn path.data ['\\']).length ≤ 2 then
    match commonSystemDirs.find? (fun d => pyContains d.data (pyLower path.data)) with
    | some _ => some s!"🚫 BLOCKED: Cannot {operation} system directory: {path}"
    | none => none
  else none

/-- `SafetyGuard.validate_file_operation`. -/
def validate_file_operation (prot : List String) (cwd : String)
    (operation path : String) : Bool × String :=
  match is_path_protected prot cwd path with
  | (true, some pr) =>
    (false, s!"🚫 BLOCKED: Cannot {operation} in protected system directory: {pr}")
  | _ =>
    match sysRootBlock operation path with
    | some m => (false, m)
    | none => (true, "✓ Safe to proceed")

/-- First backslash-separated segment after the drive identifier (the notion
used by the defense-in-depth claim), lower-cased. -/
def firstSegmentAfterDrive (path : String) : Option String :=
  match (pySplitOn (pyLower path.data) ['\\']).drop 1 with
  | seg :: _ => some (String.mk seg)
  | [] => none

/-! ## `context_manager.py` — `ContextManager`

The mutable instance is modelled as an explicit state record; `time.time()` is
an integer parameter passed to the operations that read the clock. -/

/-- One entry of `ContextManager.command_history`. -/
structure HistEntry where
  command : String
  result : String
  context : Option String
  timestamp : Int
deriving Repr, DecidableEq

/-- The fields of a `ContextManager` instance.  Externally-owned objects
(Selenium elements, window handles, processes) are abstracted as `String`
handles. -/
structure ContextState where
  current_app : Option String
  last_command : Option String
  last_command_time : Int
  youtube_active : Bool
  youtube_videos : List String
  youtube_current_index : Int
  notepad_active : Bool
  notepad_handle : Option String
  notepad_process : Option String
  browser_active : Bool
  browser : Option String
  browser_current_url : Option String
  file_explorer_active : Bool
  current_directory : Option String
  current_files : List String
  command_history : List HistEntry
deriving Repr

/-- `ContextManager.__init__`. -/
def initContext : ContextState :=
  { current_app := none, last_command := none, last_command_time := 0,
    youtube_active := false, youtube_videos := [], youtube_current_index := -1,
    notepad_active := false, notepad_handle := none, notepad_process := none,
    browser_active := false, browser := none, browser_current_url := none,
    file_explorer_active := false, current_directory := none, current_files := [],
    command_history := [] }

/-- `ContextManager.max_history`. -/
def max_history : Nat := 10

/-- The keyword arguments `set_context` inspects (`'x' in kwargs` becomes
`Option.isSome`). -/
structure SetArgs where
  videos : Option (List String) := none
  browser : Option String := none
  handle : Option String := none
  process : Option String := none
  url : Option String := none
  directory : Option String := none
  files : Option (List String) := none
deriving Repr

/-- `ContextManager.set_context`. -/
def set_context (app : String) (kw : SetArgs) (s : ContextState) : ContextState :=
  if app = "youtube" then
    { s with current_app := some app,
             youtube_active := true, browser_active := false,
             youtube_videos := kw.videos.getD s.youtube_videos,
             browser := match kw.browser with | some b => some b | none => s.browser }
  else if app = "notepad" then
    { s with current_app := some app, notepad_active := true,
             notepad_handle :=
               match kw.handle with | some h => some h | none => s.notepad_handle,
             notepad_process :=
               match kw.process with | some p => some p | none => s.notepad_process }
  else if app = "browser" then
    { s with current_app := some app,
             browser_active := true, youtube_active := false,
             browser := match kw.browser with | some b => some b | none => s.browser,
             browser_current_url :=
               match kw.url with | some u => some u | none => s.browser_current_url }
  else if app = "file_explorer" then
    { s with current_app := some app, file_explorer_active := true,
             current_directory :=
               match kw.directory with | some d => some d | none => s.current_directory,
             current_files := kw.files.getD s.current_files }
  else { s with current_app := some app }

/-- `ContextManager.clear_context`. -/
def clear_context (app : Option String) (s : ContextState) : ContextState :=
  let s1 := if app = none ∨ app = some "youtube" then
      { s with youtube_active := false, youtube_videos := [],
               youtube_current_index := -1 }
    else s
  let s2 := if app = none ∨ app = some "notepad" then
      { s1 with notepad_active := false, notepad_handle := none,
                notepad_process := none }
    else s1
  let s3 := if app = none ∨ app = some "browser" then
      { s2 with browser_active := false, browser_current_url := none }
    else s2
  let s4 := if app = none ∨ app = some "file_explorer" then
      { s3 with file_explorer_active := false, current_directory := none,
                current_files := [] }
    else s3
  if app = none then { s4 with current_app := none, browser := none } else s4

/-- `ContextManager.add_command` (`now` is the value of `time.time()` during
the call; an empty-string `context` argument is falsy in Python, so it falls
back to `current_app` just like `None`). -/
def add_command (command result : String) (context : Option String) (now : Int)
    (s : ContextState) : ContextState :=
  let entryContext : Option String :=
    match context with
    | some c => if c = "" then s.current_app else some c
    | none => s.current_app
  let hist := s.command_history ++
    [{ command := command, result := result, context := entryContext,
       timestamp := now }]
  let hist := if hist.length > max_history then hist.drop 1 else hist
  { s with command_history := hist, last_command := some command,
           last_command_time := now }

/-- `ContextManager.is_context_fresh`. -/
def is_context_fresh (s : ContextState) (now : Int)
    (max_age_seconds : Int := 300) : Bool :=
  if s.last_command_time = 0 then false
  else decide ((now - s.last_command_time) < max_age_seconds)

/-- A `set_context`/`clear_context` operation (for stating state invariants
over arbitrary operation sequences). -/
inductive CtxOp where
  | set (app : String) (kw : SetArgs)
  | clear (app : Option String)

/-- Apply one context operation. -/
def applyCtxOp (op : CtxOp) (s : ContextState) : ContextState :=
  match op with
  | .set app kw => set_context app kw s
  | .clear app => clear_context app s

/-- Apply a sequence of context operations, left to right. -/
def applyCtxOps (ops : List CtxOp) (s : ContextState) : ContextState :=
  match ops with
  | [] => s
  | op :: rest => applyCtxOps rest (applyCtxOp op s)

/-- One recorded call to `add_command`, with the clock value at that call. -/
structure AddOp where
  command : String
  result : String
  context : Option String
  time : Int

/-- Run a sequence of `add_command` calls, left to right. -/
def runAddCommands (ops : List AddOp) (s : ContextState) : ContextState :=
  match ops with
  | [] => s
  | op :: rest =>
    runAddCommands rest (add_command op.command op.result op.context op.time s)

/-! ## `action_executor.py` — `ActionExecutor`

`execute_plan` iterates the plan; each step's bound method acts on the outside
world, so the method call is abstracted as a dispatch oracle mapping the
(1-based) step number to its outcome: a `(success, message)` return or a
raised exception.  A missing/unknown action name never reaches the oracle,
exactly as in the source. -/

/-- The keys of `ActionExecutor.action_map`. -/
def actionMapKeys : List String :=
  ["list_files", "open_app", "open_file", "type_text", "press_key",
   "search_files", "search_web", "create_folder", "move_file", "copy_file",
   "screenshot", "open_browser", "wait", "focus_window", "click_element",
   "scroll"]

/-- One plan step as consumed by `execute_plan`: the value of
`action.get("action")` (`none` when the key is absent).  The `params` dict is
passed to the dispatched method and is absorbed into the dispatch oracle
(a bad `params` shape raises `TypeError`, which the oracle reports as an
exception outcome). -/
structure PlanStep where
  action : Option String
deriving Repr, DecidableEq

/-- Outcome of calling one step's bound method. -/
inductive DispatchOutcome where
  | ret (ok : Bool) (msg : String)
  | exc (msg : String)
deriving Repr, DecidableEq

/-- Python `None` rendered inside an f-string. -/
def pyShowOpt : Option String → String
  | some s => s
  | none => "None"

/-- Whether a step's action name is a key of `action_map`. -/
def stepKnown (step : PlanStep) : Bool :=
  match step.action with
  | some a => actionMapKeys.contains a
  | none => false

/-- The result string `execute_plan` records for step `i` of `n` (1-based):
unknown actions get the `❌ …/…` record, a `(success, message)` return gets
`✓`/`✗`, and a raised exception gets `✗` with the message truncated to 100
characters (`str(e)[:100]`). -/
def stepResult (n i : Nat) (step : PlanStep) (outcome : DispatchOutcome) : String :=
  if stepKnown step then
    match outcome with
    | .ret true m => s!"✓ Step {i}: {m}"
    | .ret false m => s!"✗ Step {i}: {m}"
    | .exc m => s!"✗ Step {i}: " ++ String.mk (m.data.take 100)
  else s!"❌ Step {i}/{n}: Unknown action '{pyShowOpt step.action}'"

/-- The `for i, action in enumerate(actions, 1)` loop of `execute_plan`. -/
def execPlanAux (dispatch : Nat → DispatchOutcome) (n : Nat) :
    Nat → List PlanStep → List String
  | _, [] => []
  | i, st :: rest =>
    stepResult n i st (dispatch i) :: execPlanAux dispatch n (i + 1) rest

/-- `ActionExecutor.execute_plan`: runs every step in order, then reports
`success = all("✓" in r for r in results)`. -/
def execute_plan (dispatch : Nat → DispatchOutcome) (steps : List PlanStep) :
    Bool × List String :=
  let results := execPlanAux dispatch steps.length 1 steps
  (results.all (fun r => pyContains "✓".data r.data), results)

/-! ## A small backtracking regex engine

`smart_template_matcher.py` and `fast_complex_handler.py` drive everything
through `re.search` on a fixed set of patterns.  The engine below interprets
a regex AST mirroring exactly the constructs those patterns use: literals,
ordered alternation, `\s`/`\w` classes, `.`, greedy/lazy `+`/`*`/`?`,
capturing groups and `$`.  It is a standard continuation-passing backtracking
matcher, so alternation order, greediness and laziness behave as in Python's
`re`; fuel makes it structurally recursive (each `+`/`*` iteration consumes at
least one character for every pattern in this file, so `length + 100` fuel is
never exhausted). -/

/-- Character classes used by the source's patterns. -/
inductive CharClassKind where
  | space
  | word
deriving Repr, DecidableEq

/-- Class membership. -/
def classHas : CharClassKind → Char → Bool
  | .space, c => pySpaceChar c
  | .word, c => pyWordChar c

/-- Regex AST.  `rep r atLeastOne lzy` is `r+`/`r*` (greedy when `lzy` is
false); `opt` is `r?`; `grp n r` is the `n`-th capturing group; `eos` is `$`. -/
inductive RE where
  | eps
  | lit (cs : List Char)
  | anyc
  | cls (k : CharClassKind)
  | alt (a b : RE)
  | seq (a b : RE)
  | rep (r : RE) (atLeastOne lzy : Bool)
  | opt (r : RE) (lzy : Bool)
  | grp (n : Nat) (r : RE)
  | eos
deriving Repr

/-- Captured groups: group number paired with the captured characters
(most recent binding first). -/
abbrev Caps := List (Nat × List Char)

/-- The backtracking matcher.  `k` is the continuation receiving the remaining
input and the captures; alternatives are tried in source order, so the first
overall match (in Python's leftmost/earliest-alternative sense) wins. -/
def reMatch : Nat → RE → List Char → Caps →
    (List Char → Caps → Option Caps) → Option Caps
  | 0, _, _, _, _ => none
  | fuel + 1, r, s, caps, k =>
    match r with
    | .eps => k s caps
    | .lit cs => if listHasPfx cs s then k (s.drop cs.length) caps else none
    | .anyc =>
      match s with
      | [] => none
      | c :: rest => if c == '\n' then none else k rest caps
    | .cls kind =>
      match s with
      | [] => none
      | c :: rest => if classHas kind c then k rest caps else none
    | .alt a b =>
      match reMatch fuel a s caps k with
      | some res => some res
      | none => reMatch fuel b s caps k
    | .seq a b => reMatch fuel a s caps (fun s2 c2 => reMatch fuel b s2 c2 k)
    | .rep r1 atLeastOne lzy =>
      if atLeastOne then
        reMatch fuel r1 s caps (fun s2 c2 =>
          reMatch fuel (.rep r1 false lzy) s2 c2 k)
      else
        if lzy then
          match k s caps with
          | some res => some res
          | none =>
            reMatch fuel r1 s caps (fun s2 c2 =>
              reMatch fuel (.rep r1 false lzy) s2 c2 k)
        else
          match reMatch fuel r1 s caps (fun s2 c2 =>
              reMatch fuel (.rep r1 false lzy) s2 c2 k) with
          | some res => some res
          | none => k s caps
    | .opt r1 lzy =>
      if lzy then
        match k s caps with
        | some res => some res
        | none => reMatch fuel r1 s caps k
      else
        match reMatch fuel r1 s caps k with
        | some res => some res
        | none => k s caps
    | .grp n r1 =>
      reMatch fuel r1 s caps (fun s2 c2 =>
        k s2 ((n, s.take (s.length - s2.length)) :: c2))
    | .eos => if s.isEmpty || s == ['\n'] then k s caps else none

/-- Attempt a match anchored at the start of `s` (`re.match` at one position). -/
def reSearchPos (r : RE) (s : List Char) : Option Caps :=
  reMatch (s.length + 100) r s [] (fun _ caps => some caps)

/-- Scan successive start positions (leftmost wins). -/
def reSearchAux (r : RE) : Nat → List Char → Option Caps
  | 0, _ => none
  | fuel + 1, s =>
    match reSearchPos r s with
    | some caps => some caps
    | none =>
      match s with
      | [] => none
      | _ :: rest => reSearchAux r fuel rest

/-- `re.search(r, s)`, returning the captures of the first match. -/
def reSearch (r : RE) (s : List Char) : Option Caps :=
  reSearchAux r (s.length + 1) s

/-- `match.group(n)`. -/
def capGet (caps : Caps) (n : Nat) : Option (List Char) :=
  (caps.find? (fun p => p.1 == n)).map (·.2)

/-- Ordered alternation of literal words, first alternative first. -/
def RE.lits : List String → RE
  | [] => .eps
  | [w] => .lit w.data
  | w :: rest => .alt (.lit w.data) (RE.lits rest)

/-- Sequence a list of regexes. -/
def RE.seqAll : List RE → RE
  | [] => .eps
  | [r] => r
  | r :: rest => .seq r (RE.seqAll rest)

/-- `\s+` (greedy). -/
def wsp : RE := .rep (.cls .space) true false

/-- `(.+?)` as group `n`. -/
def dotLazy (n : Nat) : RE := .grp n (.rep .anyc true true)

/-- `(.+)` as group `n`. -/
def dotGreedy (n : Nat) : RE := .grp n (.rep .anyc true false)

/-- `(\w+)` as group `n`. -/
def wordPlus (n : Nat) : RE := .grp n (.rep (.cls .word) true false)

/-- `.*` (greedy). -/
def dotStar : RE := .rep .anyc false false

/-- `.*?` (lazy). -/
def dotStarLazy : RE := .rep .anyc false true

/-- `s?` (greedy, for `files?`). -/
def optS : RE := .opt (.lit ['s']) false

/-! ## `smart_template_matcher.py` — `SmartTemplateMatcher` -/

/-- A template: pattern, action name, extraction slot names (bound to capture
groups `1, 2, …`). -/
structure Template where
  pat : RE
  action : String
  extract : List String

/-- `SmartTemplateMatcher.templates`, transcribed pattern by pattern in the
declared order. -/
def smartTemplates : List Template := [
  -- r'(?:list|show|display|get)\s+(?:all\s+)?(?:files?\s+)?(?:in\s+)?(.+?)(?:\s+folder|\s+directory|$)'
  { pat := .seqAll [.lits ["list", "show", "display", "get"], wsp,
      .opt (.seqAll [.lit "all".data, wsp]) false,
      .opt (.seqAll [.lit "file".data, optS, wsp]) false,
      .opt (.seqAll [.lit "in".data, wsp]) false,
      dotLazy 1,
      .alt (.seqAll [wsp, .lit "folder".data])
        (.alt (.seqAll [wsp, .lit "directory".data]) .eos)],
    action := "list_files", extract := ["location"] },
  -- r'(?:find|search|locate)\s+(?:all\s+)?(.+?)\s+(?:files?|in)\s+(.+)'
  { pat := .seqAll [.lits ["find", "search", "locate"], wsp,
      .opt (.seqAll [.lit "all".data, wsp]) false,
      dotLazy 1, wsp,
      .alt (.seqAll [.lit "file".data, optS]) (.lit "in".data), wsp,
      dotGreedy 2],
    action := "search_files", extract := ["file_type", "location"] },
  -- r'(?:find|search|locate)\s+(?:all\s+)?(.+?)(?:\s+files?)?$'
  { pat := .seqAll [.lits ["find", "search", "locate"], wsp,
      .opt (.seqAll [.lit "all".data, wsp]) false,
      dotLazy 1,
      .opt (.seqAll [wsp, .lit "file".data, optS]) false, .eos],
    action := "search_files", extract := ["file_type"] },
  -- r'(?:organize|sort|arrange)\s+(.+?)(?:\s+by\s+(.+?))?$'
  { pat := .seqAll [.lits ["organize", "sort", "arrange"], wsp,
      dotLazy 1,
      .opt (.seqAll [wsp, .lit "by".data, wsp, dotLazy 2]) false, .eos],
    action := "organize", extract := ["location", "criteria"] },
  -- r'(?:move|copy)\s+(.+?)\s+(?:to|into)\s+(.+)'
  { pat := .seqAll [.lits ["move", "copy"], wsp, dotLazy 1, wsp,
      .lits ["to", "into"], wsp, dotGreedy 2],
    action := "move_copy", extract := ["source", "destination"] },
  -- r'(?:delete|remove)\s+(.+)'
  { pat := .seqAll [.lits ["delete", "remove"], wsp, dotGreedy 1],
    action := "delete", extract := ["target"] },
  -- r'(?:list|show)\s+(.+?)\s+(?:in|to)\s+(.+)'
  { pat := .seqAll [.lits ["list", "show"], wsp, dotLazy 1, wsp,
      .lits ["in", "to"], wsp, dotGreedy 2],
    action := "list_to_app", extract := ["what", "where"] },
  -- r'(?:make|create)\s+(?:a\s+)?list\s+of\s+(.+?)\s+in\s+(.+)'
  { pat := .seqAll [.lits ["make", "create"], wsp,
      .opt (.seqAll [.lit "a".data, wsp]) false,
      .lit "list".data, wsp, .lit "of".data, wsp, dotLazy 1, wsp,
      .lit "in".data, wsp, dotGreedy 2],
    action := "make_list", extract := ["content", "app"] },
  -- r'open\s+(.+?)\s+(?:and|then)\s+(.+)'
  { pat := .seqAll [.lit "open".data, wsp, dotLazy 1, wsp,
      .lits ["and", "then"], wsp, dotGreedy 2],
    action := "open_and_do", extract := ["app", "action"] },
  -- r'(?:search|find)\s+(.+?)\s+(?:in|on)\s+(.+)'
  { pat := .seqAll [.lits ["search", "find"], wsp, dotLazy 1, wsp,
      .lits ["in", "on"], wsp, dotGreedy 2],
    action := "search_in_app", extract := ["query", "app"] }]

/-- `SmartTemplateMatcher.location_map`. -/
def location_map : List (String × String) :=
  [("downloads", "~/Downloads"), ("download", "~/Downloads"),
   ("documents", "~/Documents"), ("document", "~/Documents"),
   ("desktop", "~/Desktop"),
   ("pictures", "~/Pictures"), ("picture", "~/Pictures"),
   ("videos", "~/Videos"), ("video", "~/Videos"),
   ("music", "~/Music"),
   ("d", "D:\\"), ("d drive", "D:\\"), ("d:", "D:\\"),
   ("e", "E:\\"), ("e drive", "E:\\"), ("e:", "E:\\"),
   ("c", "C:\\"), ("c drive", "C:\\"), ("c:", "C:\\")]

/-- The tail of the drive pattern `^([a-z])\s*(?:drive|:)?$` after the
letter: any spaces, then optionally `drive` or `:`, then end. -/
def driveTail (rest : List Char) : Bool :=
  let rem := rest.dropWhile pySpaceChar
  rem.isEmpty || rem == "drive".data || rem == [':']

/-- `SmartTemplateMatcher._expand_location` (`none` models Python `None`,
returned for a falsy input). -/
def expandLocation (location : String) : Option String :=
  if location = "" then none
  else
    let l := pyStrip (pyLower location.data)
    match l with
    | c :: rest =>
      if ('a' ≤ c && c ≤ 'z') && driveTail rest then
        some (String.mk [c.toUpper, ':', '\\'])
      else
        match location_map.find? (fun p => p.1.data == l) with
        | some p => some p.2
        | none => some (String.mk l)
    | [] =>
      match location_map.find? (fun p => p.1.data == l) with
      | some p => some p.2
      | none => some (String.mk l)

/-- A parameter value in a match result: a string, a list of sub-commands
(for `chain_execution`), or Python `None`. -/
inductive PVal where
  | str (v : String)
  | list (vs : List String)
  | noneV
deriving Repr, DecidableEq

/-- The `{action, params}` dictionary returned by `match`. -/
structure MatchResult where
  action : String
  params : List (String × PVal)
deriving Repr, DecidableEq

/-- The parameter-building loop of `match`: for each extraction slot (1-based
group numbers), a participating truthy group is stripped and, for `location`
slots, expanded. -/
def buildParams (caps : Caps) (extract : List String) : List (String × PVal) :=
  (extract.enumFrom 1).filterMap (fun p =>
    match capGet caps p.1 with
    | some v =>
      if v.isEmpty then none
      else
        let value := String.mk (pyStrip v)
        if p.2 = "location" then
          some (p.2, match expandLocation value with
                     | some s => PVal.str s
                     | none => PVal.noneV)
        else some (p.2, PVal.str value)
    | none => none)

/-- The template loop of `match`: first template whose pattern matches wins. -/
def matchTemplates (cl : List Char) : Option MatchResult :=
  smartTemplates.findSome? (fun t =>
    match reSearch t.pat cl with
    | some caps => some { action := t.action, params := buildParams caps t.extract }
    | none => none)

/-- The `command_verbs` list used by the chain split. -/
def command_verbs : List String :=
  ["open", "close", "write", "list", "show", "find", "search",
   "play", "pause", "stop", "click", "type", "make", "organize",
   "browse", "get", "create", "display"]

/-- The `\b` after the look-ahead verb: end of input or a non-word character. -/
def verbBoundary : List Char → Bool
  | [] => true
  | c :: _ => !pyWordChar c

/-- The look-ahead `(?=(?:open|close|…)\b)`. -/
def verbAhead (cs : List Char) : Bool :=
  command_verbs.any (fun v =>
    listHasPfx v.data cs && verbBoundary (cs.drop v.data.length))

/-- Length of a separator `\s+(?:and|then)\s+(?=verb\b)` matched at the start
of `cs` (the inner `\s+` runs are maximal, and the conjunction must start
right after the spaces, so the match is deterministic). -/
def sepAt (cs : List Char) : Option Nat :=
  let n1 := (cs.takeWhile pySpaceChar).length
  if n1 = 0 then none
  else
    let rest1 := cs.drop n1
    let conjLen : Option Nat :=
      if listHasPfx "and".data rest1 then some 3
      else if listHasPfx "then".data rest1 then some 4
      else none
    match conjLen with
    | none => none
    | some len =>
      let rest2 := rest1.drop len
      let n2 := (rest2.takeWhile pySpaceChar).length
      if n2 = 0 then none
      else if verbAhead (rest2.drop n2) then some (n1 + len + n2) else none

/-- `re.split(split_pattern, …)`: scan left to right, cutting at each
separator occurrence (fuel `length + 1` suffices: every step consumes at
least one character). -/
def chainSplitAux : Nat → List Char → List Char → List (List Char)
  | 0, rest, acc => [acc.reverse ++ rest]
  | fuel + 1, cs, acc =>
    match sepAt cs with
    | some len => acc.reverse :: chainSplitAux fuel (cs.drop len) []
    | none =>
      match cs with
      | [] => [acc.reverse]
      | c :: rest => chainSplitAux fuel rest (c :: acc)

/-- The parts produced by `re.split` on the chain separator. -/
def chainSplitParts (cs : List Char) : List (List Char) :=
  chainSplitAux (cs.length + 1) cs []

/-- `SmartTemplateMatcher.match`: the chain check runs first (`re.search` on
the separator finds a match exactly when the split yields at least two
parts), otherwise the templates are tried in order. -/
def smartMatch (command : String) : Option MatchResult :=
  let cl := pyStrip (pyLower command.data)
  let parts := chainSplitParts cl
  if parts.length ≥ 2 then
    some { action := "chain_execution",
           params := [("commands", PVal.list (parts.map String.mk))] }
  else matchTemplates cl

/-! ## `fast_complex_handler.py` — `FastComplexHandler`

`handle` recognizes four patterns; each recognized pattern runs a hard-coded
sub-handler acting on the outside world.  Every sub-handler body returns
`True` on (possibly partial) completion and `None` on a listing error or a
raised exception — never `False` — so the sub-handlers are abstracted as a
success oracle per pattern. -/

/-- Pattern 1: `r'(?:make|create|write)\s+(?:a\s+)?list.*(?:file|download).*notepad'`. -/
def fastP1 : RE :=
  .seqAll [.lits ["make", "create", "write"], wsp,
    .opt (.seqAll [.lit "a".data, wsp]) false,
    .lit "list".data, dotStar,
    .alt (.lit "file".data) (.lit "download".data), dotStar,
    .lit "notepad".data]

/-- Pattern 2: `r'organize.*download'`. -/
def fastP2 : RE := .seqAll [.lit "organize".data, dotStar, .lit "download".data]

/-- Pattern 3: `r'find\s+(?:all\s+)?(.+?)\s+(?:and\s+)?move.*?(?:to\s+)?(\w+)'`. -/
def fastP3 : RE :=
  .seqAll [.lit "find".data, wsp,
    .opt (.seqAll [.lit "all".data, wsp]) false,
    dotLazy 1, wsp,
    .opt (.seqAll [.lit "and".data, wsp]) false,
    .lit "move".data, dotStarLazy,
    .opt (.seqAll [.lit "to".data, wsp]) false,
    wordPlus 2]

/-- Pattern 4: `r'open\s+(\w+).*search\s+(.+)'`. -/
def fastP4 : RE :=
  .seqAll [.lit "open".data, wsp, wordPlus 1, dotStar,
    .lit "search".data, wsp, dotGreedy 2]

/-- The first fast pattern (in source order) matching the lowered, stripped
command, if any. -/
def fastPatternIndex (tl : List Char) : Option (Fin 4) :=
  if (reSearch fastP1 tl).isSome then some 0
  else if (reSearch fastP2 tl).isSome then some 1
  else if (reSearch fastP3 tl).isSome then some 2
  else if (reSearch fastP4 tl).isSome then some 3
  else none

/-- `FastComplexHandler.handle`: `some true` = handled, `some false` = no
pattern recognized, `none` = pattern recognized but its sub-handler failed.
`outcome i` tells whether pattern `i`'s sub-handler body completed (its body
returns `True`) or failed (listing error or exception, returning `None`). -/
def fastHandle (text : String) (outcome : Fin 4 → Bool) : Option Bool :=
  let tl := pyStrip (pyLower text.data)
  match fastPatternIndex tl with
  | some i => if outcome i then some true else none
  | none => some false

/-! ## `vision_ai.py` — `VisionAI.process_command` (the tier cascade)

The cascade is a pure routing decision once the tiers' side-effecting bodies
are abstracted: `templateExec` is the boolean returned by
`smart_templates.execute` on the matched template, `fastOutcome` the fast
sub-handler oracle, `instant` the boolean of `instant_execute`, `llmActions`
the plan returned by `llm.parse_ambiguous_command` (with `none` for `None`;
`if actions:` also treats an empty list as falsy). -/

/-- Which tier ends up handling one command. -/
inductive RouteResult where
  | template (action : String)
  | fastComplex
  | fastFailedStop
  | instant
  | llm (n : Nat)
  | notUnderstood
deriving Repr, DecidableEq

/-- Outcomes of the side-effecting tier bodies for one command. -/
structure TierOracles where
  templateExec : Bool
  fastOutcome : Fin 4 → Bool
  instant : Bool
  llmActions : Option (List PlanStep)

/-- `VisionAI.process_command`. -/
def process_command (text : String) (o : TierOracles) : RouteResult :=
  let afterTemplate :=
    match fastHandle text o.fastOutcome with
    | some true => RouteResult.fastComplex
    | none => RouteResult.fastFailedStop
    | some false =>
      if o.instant then RouteResult.instant
      else
        match o.llmActions with
        | some actions =>
          if actions.length ≠ 0 then RouteResult.llm actions.length
          else RouteResult.notUnderstood
        | none => RouteResult.notUnderstood
  match smartMatch text with
  | some m => if o.templateExec then RouteResult.template m.action else afterTemplate
  | none => afterTemplate

/-! ## `llm_controller.py` — `LLMController`

`parse_ambiguous_command` is modelled with two oracles: whether `load_model`
succeeds, and the raw inference result (`Except.error` models a raised
exception, `Except.ok raw` the model's text).  `json.loads` is modelled for
the JSON subset in scope (integer numerals, strings, arrays, objects,
booleans, null; `\uXXXX` escapes and float literals are outside the inputs
exercised here and make the modelled parser fail). -/

/-- A parsed JSON value (numbers restricted to integers). -/
inductive Json where
  | nullJ
  | boolJ (b : Bool)
  | numJ (n : Int)
  | strJ (s : String)
  | arrJ (xs : List Json)
  | objJ (kvs : List (String × Json))
deriving Repr

/-- JSON insignificant whitespace. -/
def jsonWs (s : List Char) : List Char :=
  s.dropWhile (fun c => c == ' ' || c == '\t' || c == '\n' || c == '\r')

/-- JSON string body after the opening quote (strict mode: raw control
characters are rejected). -/
def parseStringBody : Nat → List Char → List Char → Option (String × List Char)
  | 0, _, _ => none
  | fuel + 1, acc, s =>
    match s with
    | [] => none
    | '"' :: rest => some (String.mk acc.reverse, rest)
    | '\\' :: e :: rest =>
      (match e with
       | '"' => parseStringBody fuel ('"' :: acc) rest
       | '\\' => parseStringBody fuel ('\\' :: acc) rest
       | '/' => parseStringBody fuel ('/' :: acc) rest
       | 'b' => parseStringBody fuel ('\x08' :: acc) rest
       | 'f' => parseStringBody fuel ('\x0c' :: acc) rest
       | 'n' => parseStringBody fuel ('\n' :: acc) rest
       | 'r' => parseStringBody fuel ('\r' :: acc) rest
       | 't' => parseStringBody fuel ('\t' :: acc) rest
       | _ => none)
    | c :: rest =>
      if c.toNat < 32 then none else parseStringBody fuel (c :: acc) rest

/-- Decimal digit-string value. -/
def digitsVal (ds : List Char) : Nat :=
  ds.foldl (fun acc c => acc * 10 + (c.toNat - 48)) 0

/-- A JSON integer numeral (leading zeros rejected as in `json.loads`;
a fraction or exponent marks a float, outside the modelled subset). -/
def parseJsonNum (s : List Char) : Option (Json × List Char) :=
  let neg := match s with | '-' :: _ => true | _ => false
  let s1 := if neg then s.drop 1 else s
  let ds := s1.takeWhile Char.isDigit
  let rest := s1.drop ds.length
  if ds.isEmpty then none
  else if ds.length > 1 && ds.headD '0' == '0' then none
  else
    let ok := match rest with
      | c :: _ => !(c == '.' || c == 'e' || c == 'E')
      | [] => true
    if ok then
      some (.numJ (if neg then -(digitsVal ds : Int) else (digitsVal ds : Int)), rest)
    else none

mutual

/-- One JSON value (recursive descent, fuel bounds the nesting). -/
def parseJsonVal : Nat → List Char → Option (Json × List Char)
  | 0, _ => none
  | fuel + 1, s =>
    let s := jsonWs s
    match s with
    | [] => none
    | '[' :: rest =>
      let rest2 := jsonWs rest
      (match rest2 with
       | ']' :: rem => some (.arrJ [], rem)
       | _ =>
         match parseArrRest fuel rest2 [] with
         | some (xs, rem) => some (.arrJ xs, rem)
         | none => none)
    | '{' :: rest =>
      let rest2 := jsonWs rest
      (match rest2 with
       | '}' :: rem => some (.objJ [], rem)
       | _ =>
         match parseObjRest fuel rest2 [] with
         | some (kvs, rem) => some (.objJ kvs, rem)
         | none => none)
    | '"' :: rest =>
      (match parseStringBody (rest.length + 1) [] rest with
       | some (str, rem) => some (.strJ str, rem)
       | none => none)
    | _ =>
      if listHasPfx "null".data s then some (.nullJ, s.drop 4)
      else if listHasPfx "true".data s then some (.boolJ true, s.drop 4)
      else if listHasPfx "false".data s then some (.boolJ false, s.drop 5)
      else parseJsonNum s

/-- Array items after the opening bracket (at least one item pending). -/
def parseArrRest : Nat → List Char → List Json → Option (List Json × List Char)
  | 0, _, _ => none
  | fuel + 1, s, acc =>
    match parseJsonVal fuel s with
    | none => none
    | some (v, rem) =>
      match jsonWs rem with
      | ',' :: rem3 => parseArrRest fuel rem3 (v :: acc)
      | ']' :: rem3 => some ((v :: acc).reverse, rem3)
      | _ => none

/-- Object members after the opening brace (at least one member pending). -/
def parseObjRest : Nat → List Char → List (String × Json) →
    Option (List (String × Json) × List Char)
  | 0, _, _ => none
  | fuel + 1, s, acc =>
    match s with
    | '"' :: rest =>
      (match parseStringBody (rest.length + 1) [] rest with
       | none => none
       | some (key, rem) =>
         match jsonWs rem with
         | ':' :: rem3 =>
           (match parseJsonVal fuel rem3 with
            | none => none
            | some (v, rem4) =>
              match jsonWs rem4 with
              | ',' :: rem6 => parseObjRest fuel (jsonWs rem6) ((key, v) :: acc)
              | '}' :: rem6 => some (((key, v) :: acc).reverse, rem6)
              | _ => none)
         | _ => none)
    | _ => none

end

/-- `json.loads` (on the modelled subset): parse one value, then require only
whitespace to remain. -/
def json_loads (text : List Char) : Option Json :=
  match parseJsonVal (text.length + 10) text with
  | some (v, rem) => if (jsonWs rem).isEmpty then some v else none
  | none => none

/-- `LLMController._parse_json`: bracket-extract, then `json.loads`
(any parse failure yields `None`). -/
def llm_parse_json (text : List Char) : Option Json :=
  let t := match pyFind ['['] text, pyRfind [']'] text with
    | some a, some b => pySlice text a (b + 1)
    | _, _ => text
  json_loads t

/-- The output-cleanup block of `parse_ambiguous_command`: strip, remove
markdown fences, then bracket-extract when the text does not already start
with `[`. -/
def cleanLLMOutput (raw : String) : List Char :=
  let output := pyStrip raw.data
  let output :=
    if pyContains "```json".data output then
      pyStrip (pySplitOn ((pySplitOn output "```json".data).getD 1 []) "```".data
        |>.getD 0 [])
    else if pyContains "```".data output then
      pyStrip (pySplitOn ((pySplitOn output "```".data).getD 1 []) "```".data
        |>.getD 0 [])
    else output
  if !listHasPfx ['['] output then
    match pyFind ['['] output, pyRfind [']'] output with
    | some a, some b => pySlice output a (b + 1)
    | _, _ => output
  else output

/-- `LLMController.parse_ambiguous_command`: `loadOk` is the `load_model`
outcome, `infer` the raw inference result (`error` = raised exception, caught
by the surrounding `try`). -/
def parse_ambiguous_command (loadOk : Bool) (infer : Except String String) :
    Option Json :=
  if !loadOk then none
  else
    match infer with
    | .error _ => none
    | .ok raw => llm_parse_json (cleanLLMOutput raw)

/-! ## Theorems for claims C1 and C6 (SafetyGuard) -/

/-- Helper: a member satisfying the test makes `List.find?` succeed. -/
theorem find?_isSome_of_mem {α} (p : α → Bool) {l : List α} {a : α}
    (ha : a ∈ l) (hp : p a = true) : (l.find? p).isSome = true :=
  List.find?_isSome.mpr ⟨a, ha, hp⟩

/-- C1: `SafetyGuard.validate_file_operation(operation, path)` returns
`allowed=false` with an explanatory reason whenever the absolute form of
`path` has a configured protected directory as a prefix (the protected match
decides the result, no further checks run), and returns `allowed=true` for
paths outside the protected areas (neither the protected-prefix match nor the
root-system-folder check fires); in particular
`validate_file_operation("delete", "C:\Windows\System32\foo")` yields
`allowed=false` and `validate_file_operation("delete", "~/Documents/foo.txt")`
yields `allowed=true` (with the working directory `C:\Users\HR`). -/
theorem C1_validate_file_operation_blocks_protected :
    (∀ (prot : List String) (cwd op path pr : String),
        is_path_protected prot cwd path = (true, some pr) →
        validate_file_operation prot cwd op path =
          (false, s!"🚫 BLOCKED: Cannot {op} in protected system directory: {pr}"))
    ∧ (∀ (prot : List String) (cwd op path : String),
        (is_path_protected prot cwd path).1 = false →
        sysRootBlock op path = none →
        validate_file_operation prot cwd op path = (true, "✓ Safe to proceed"))
    ∧ validate_file_operation PROTECTED_PATHS "C:\\Users\\HR" "delete"
        "C:\\Windows\\System32\\foo"
        = (false, "🚫 BLOCKED: Cannot delete in protected system directory: C:\\\\Windows")
    ∧ validate_file_operation PROTECTED_PATHS "C:\\Users\\HR" "delete"
        "~/Documents/foo.txt" = (true, "✓ Safe to proceed") := by
  refine ⟨?_, ?_, by decide, by decide⟩
  · intro prot cwd op path pr h
    unfold validate_file_operation
    rw [h]
  · intro prot cwd op path h1 h2
    unfold validate_file_operation
    rcases hip : is_path_protected prot cwd path with ⟨b, o⟩
    rw [hip] at h1
    simp only at h1
    subst h1
    cases o <;> simp only [h2]

/-- C1 witness: both general conjuncts applied at concrete inputs. -/
theorem C1_witness :
    validate_file_operation PROTECTED_PATHS "C:\\Users\\HR" "delete"
        "C:\\Windows\\notepad.exe"
      = (false, "🚫 BLOCKED: Cannot delete in protected system directory: C:\\\\Windows")
    ∧ validate_file_operation PROTECTED_PATHS "C:\\Users\\HR" "list"
        "D:\\Stuff\\x.txt" = (true, "✓ Safe to proceed") :=
  ⟨C1_validate_file_operation_blocks_protected.1 PROTECTED_PATHS "C:\\Users\\HR"
      "delete" "C:\\Windows\\notepad.exe" "C:\\\\Windows" (by decide),
   C1_validate_file_operation_blocks_protected.2.1 PROTECTED_PATHS "C:\\Users\\HR"
      "list" "D:\\Stuff\\x.txt" (by decide) (by decide)⟩

/-- C6 counterexample: the path `c:\windows\foo` has first segment after the
drive naming the well-known system folder `windows`, is not matched by the
explicit protected-path set (the prefix comparison is case-sensitive), and yet
`validate_file_operation` returns `allowed=true` — the claim's universally
quantified blocking property fails on it, because the root-system-folder check
only fires for paths with at most two backslash-separated segments. -/
theorem C6_counterexample_deep_system_path_allowed :
    firstSegmentAfterDrive "c:\\windows\\foo" = some "windows"
    ∧ "windows" ∈ commonSystemDirs
    ∧ (is_path_protected PROTECTED_PATHS "C:\\Users\\HR" "c:\\windows\\foo").1 = false
    ∧ (validate_file_operation PROTECTED_PATHS "C:\\Users\\HR" "delete"
        "c:\\windows\\foo").1 = true :=
  ⟨by decide, by decide, by decide, by decide⟩

/-- C6 (amended): for every path that starts, lower-cased, with `c:\` and has
at most two backslash-separated segments, and that contains (lower-cased) a
well-known system folder name as a substring, `validate_file_operation`
returns `allowed=false` — even when the path is not matched by the explicit
protected-path set.  (The source applies the defense-in-depth check only to
such near-root paths; deeper paths are decided by the protected-prefix match
alone.) -/
theorem C6_amended_root_system_folder_blocked :
    ∀ (prot : List String) (cwd op path d : String),
      listHasPfx "c:\\".data (pyLower path.data) = true →
      (pySplitOn path.data ['\\']).length ≤ 2 →
      d ∈ commonSystemDirs →
      pyContains d.data (pyLower path.data) = true →
      (validate_file_operation prot cwd op path).1 = false := by
  intro prot cwd op path d h1 h2 hd hc
  have hblock : (sysRootBlock op path).isSome = true := by
    unfold sysRootBlock
    rw [if_pos (by simp [h1, h2])]
    rcases hfind : commonSystemDirs.find? (fun x => pyContains x.data (pyLower path.data))
      with _ | w
    · have := find?_isSome_of_mem (fun x => pyContains x.data (pyLower path.data)) hd hc
      rw [hfind] at this
      simp at this
    · rw [hfind]
      rfl
  rcases hblk : sysRootBlock op path with _ | m
  · rw [hblk] at hblock
    simp at hblock
  · unfold validate_file_operation
    rcases hip : is_path_protected prot cwd path with ⟨b, o⟩
    cases b <;> cases o <;> simp [hblk]

/-- C6 witness: the amended blocking property at the concrete near-root path
`c:\windows`. -/
theorem C6_witness :
    (validate_file_operation PROTECTED_PATHS "C:\\Users\\HR" "delete"
        "c:\\windows").1 = false :=
  C6_amended_root_system_folder_blocked PROTECTED_PATHS "C:\\Users\\HR" "delete"
    "c:\\windows" "windows" (by decide) (by decide) (by decide) (by decide)

/-! ## Theorems for claims C7, C9, C10 (ContextManager) -/

/-- Helper: freshness after a run of `add_command` calls with positive clock
values is decided by the last call's clock value. -/
theorem runAddCommands_fresh (now maxAge : Int) :
    ∀ (ops : List AddOp) (s : ContextState), (∀ op ∈ ops, 0 < op.time) →
    is_context_fresh (runAddCommands ops s) now maxAge
      = match ops.getLast? with
        | none => is_context_fresh s now maxAge
        | some op => decide (now - op.time < maxAge) := by
  intro ops
  induction ops with
  | nil => intro s _; rfl
  | cons op rest ih =>
    intro s h
    have hop : 0 < op.time := h op (by simp)
    have hrest : ∀ o ∈ rest, 0 < o.time := fun o ho => h o (by simp [ho])
    rcases rest with _ | ⟨op2, rest2⟩
    · show is_context_fresh (add_command op.command op.result op.context op.time s)
        now maxAge = decide (now - op.time < maxAge)
      unfold is_context_fresh add_command
      simp only
      rw [if_neg (by omega)]
    · show is_context_fresh
        (runAddCommands (op2 :: rest2)
          (add_command op.command op.result op.context op.time s)) now maxAge = _
      rw [ih _ hrest]
      rcases hgl : (op2 :: rest2).getLast? with _ | l
      · simp at hgl
      · rw [List.getLast?_cons_cons, hgl]

/-- C7: `is_context_fresh` is false on a freshly constructed `ContextManager`;
after `add_command` at (positive) clock value `t` it equals
`now - t < max_age_seconds`, so it is true immediately after the call and
false once more than 300 seconds have elapsed; and over any run of
`add_command` calls with positive clock values it is true iff at least one
command was recorded and the time since the last recorded command is under
the threshold. -/
theorem C7_is_context_fresh_characterization :
    (∀ (now maxAge : Int), is_context_fresh initContext now maxAge = false)
    ∧ (∀ (s : ContextState) (cmd res : String) (ctx : Option String) (t : Int),
        0 < t → ∀ (now maxAge : Int),
        is_context_fresh (add_command cmd res ctx t s) now maxAge
          = decide (now - t < maxAge))
    ∧ (∀ (s : ContextState) (cmd res : String) (ctx : Option String) (t : Int),
        0 < t → is_context_fresh (add_command cmd res ctx t s) t 300 = true)
    ∧ (∀ (s : ContextState) (cmd res : String) (ctx : Option String) (t now : Int),
        0 < t → 300 < now - t →
        is_context_fresh (add_command cmd res ctx t s) now 300 = false)
    ∧ (∀ (ops : List AddOp), (∀ op ∈ ops, 0 < op.time) → ∀ (now maxAge : Int),
        (is_context_fresh (runAddCommands ops initContext) now maxAge = true
          ↔ ∃ op, ops.getLast? = some op ∧ now - op.time < maxAge)) := by
  refine ⟨fun now maxAge => rfl, ?_, ?_, ?_, ?_⟩
  · intro s cmd res ctx t ht now maxAge
    unfold is_context_fresh add_command
    simp only
    rw [if_neg (by omega)]
  · intro s cmd res ctx t ht
    unfold is_context_fresh add_command
    simp only
    rw [if_neg (by omega)]
    simp
  · intro s cmd res ctx t now ht hnow
    unfold is_context_fresh add_command
    simp only
    rw [if_neg (by omega)]
    simp
    omega
  · intro ops h now maxAge
    rw [runAddCommands_fresh now maxAge ops initContext h]
    rcases hgl : ops.getLast? with _ | l
    · simp [is_context_fresh, initContext]
    · simp

/-- C7 witness: the freshness characterization at concrete inputs — recorded
at time 5, fresh at time 5, stale at time 400. -/
theorem C7_witness :
    is_context_fresh (add_command "open chrome" "ok" none 5 initContext) 5 300 = true
    ∧ is_context_fresh (add_command "open chrome" "ok" none 5 initContext) 400 300
        = false :=
  ⟨C7_is_context_fresh_characterization.2.2.1 initContext "open chrome" "ok" none 5
      (by decide),
   C7_is_context_fresh_characterization.2.2.2.1 initContext "open chrome" "ok" none 5
      400 (by decide) (by decide)⟩

/-- Helper: a single context operation preserves the youtube/browser mutual
exclusion. -/
theorem applyCtxOp_mutex (op : CtxOp) (s : ContextState)
    (h : ¬(s.youtube_active = true ∧ s.browser_active = true)) :
    ¬((applyCtxOp op s).youtube_active = true
      ∧ (applyCtxOp op s).browser_active = true) := by
  cases op with
  | set app kw =>
    show ¬((set_context app kw s).youtube_active = true
      ∧ (set_context app kw s).browser_active = true)
    unfold set_context
    split_ifs <;> simp_all
  | clear app =>
    show ¬((clear_context app s).youtube_active = true
      ∧ (clear_context app s).browser_active = true)
    unfold clear_context
    split_ifs <;> simp_all

/-- C9: starting from a freshly constructed `ContextManager`, after any
sequence of `set_context`/`clear_context` operations, `youtube_active` and
`browser_active` are never both true; `set_context("youtube")` forces
`browser_active = false` and `set_context("browser")` forces
`youtube_active = false`; and setting either of those surfaces leaves the
active flags of notepad and file_explorer unchanged. -/
theorem C9_youtube_browser_mutual_exclusion :
    (∀ (ops : List CtxOp),
        ¬((applyCtxOps ops initContext).youtube_active = true
          ∧ (applyCtxOps ops initContext).browser_active = true))
    ∧ (∀ (s : ContextState) (kw : SetArgs),
        (set_context "youtube" kw s).browser_active = false
        ∧ (set_context "browser" kw s).youtube_active = false)
    ∧ (∀ (s : ContextState) (kw : SetArgs),
        (set_context "youtube" kw s).notepad_active = s.notepad_active
        ∧ (set_context "youtube" kw s).file_explorer_active = s.file_explorer_active
        ∧ (set_context "browser" kw s).notepad_active = s.notepad_active
        ∧ (set_context "browser" kw s).file_explorer_active
            = s.file_explorer_active) := by
  refine ⟨?_, ?_, ?_⟩
  · have main : ∀ (ops : List CtxOp) (s : ContextState),
        ¬(s.youtube_active = true ∧ s.browser_active = true) →
        ¬((applyCtxOps ops s).youtube_active = true
          ∧ (applyCtxOps ops s).browser_active = true) := by
      intro ops
      induction ops with
      | nil => intro s h; exact h
      | cons op rest ih =>
        intro s h
        exact ih (applyCtxOp op s) (applyCtxOp_mutex op s h)
    intro ops
    exact main ops initContext (by simp [initContext])
  · intro s kw
    constructor <;> (unfold set_context; split_ifs <;> simp_all)
  · intro s kw
    refine ⟨?_, ?_, ?_, ?_⟩ <;> (unfold set_context; split_ifs <;> simp_all)

/-- C10: `clear_context` with a specific surface name resets only that
surface's flags and auxiliary data, leaving `current_app` and the shared
`browser` handle unchanged (shown field-by-field for the `"youtube"` example,
and for `current_app`/`browser` for every surface name); only
`clear_context()` with no argument resets `current_app` and `browser` to
`None`. -/
theorem C10_clear_context_frame :
    (∀ (s : ContextState) (app : String),
        (clear_context (some app) s).current_app = s.current_app
        ∧ (clear_context (some app) s).browser = s.browser)
    ∧ (∀ (s : ContextState),
        (clear_context none s).current_app = none
        ∧ (clear_context none s).browser = none)
    ∧ (∀ (s : ContextState),
        clear_context (some "youtube") s
          = { s with youtube_active := false, youtube_videos := [],
                     youtube_current_index := -1 }) := by
  refine ⟨?_, ?_, ?_⟩
  · intro s app
    constructor <;> (unfold clear_context; split_ifs <;> simp_all)
  · intro s
    constructor <;> (unfold clear_context; split_ifs <;> simp_all)
  · intro s
    rfl

/-! ## Theorems for claim C2 (ActionExecutor) -/

/-- Helper: the execution loop produces one result per step. -/
theorem execPlanAux_length (dispatch : Nat → DispatchOutcome) (n : Nat) :
    ∀ (steps : List PlanStep) (i : Nat),
      (execPlanAux dispatch n i steps).length = steps.length := by
  intro steps
  induction steps with
  | nil => intro i; rfl
  | cons st rest ih =>
    intro i
    show (stepResult n i st (dispatch i) :: execPlanAux dispatch n (i + 1) rest).length
      = _
    simp [ih]

/-- Helper: the `k`-th result of the execution loop started at index `i`
depends only on the `k`-th step and the dispatch outcome at `i + k`. -/
theorem execPlanAux_get? (dispatch : Nat → DispatchOutcome) (n : Nat) :
    ∀ (steps : List PlanStep) (i k : Nat) (st : PlanStep), steps[k]? = some st →
      (execPlanAux dispatch n i steps)[k]?
        = some (stepResult n (i + k) st (dispatch (i + k))) := by
  intro steps
  induction steps with
  | nil => intro i k st h; simp at h
  | cons hd rest ih =>
    intro i k st h
    cases k with
    | zero =>
      simp at h
      subst h
      simp [execPlanAux]
    | succ k2 =>
      have h2 : rest[k2]? = some st := by simpa using h
      show (stepResult n i hd (dispatch i) :: execPlanAux dispatch n (i + 1) rest)[k2 + 1]?
        = some (stepResult n (i + (k2 + 1)) st (dispatch (i + (k2 + 1))))
      have := ih (i + 1) k2 st h2
      simpa [Nat.add_assoc, Nat.add_comm 1 k2] using this

/-- C2: `execute_plan` runs every step of a plan strictly in order with
best-effort semantics — the result list has exactly one entry per step, the
`k`-th entry is determined by the `k`-th step and its own dispatch outcome
alone (so an unknown action name or a raised dispatch is recorded as a
failure for that step only and execution continues), a raised dispatch on a
known action is recorded as `✗ Step i:` with the exception message truncated
to 100 characters, an unknown action name is recorded with the `❌ Unknown
action` record, and `overall_success` is true iff every step's result carries
the `✓` success marker; in particular a 3-step plan whose second dispatch
raises still produces 3 per-step results with steps 1 and 3 marked by their
own outcomes and `overall_success = false`. -/
theorem C2_execute_plan_best_effort :
    (∀ (dispatch : Nat → DispatchOutcome) (steps : List PlanStep),
        (execute_plan dispatch steps).2.length = steps.length)
    ∧ (∀ (dispatch : Nat → DispatchOutcome) (steps : List PlanStep),
        (execute_plan dispatch steps).1
          = (execute_plan dispatch steps).2.all
              (fun r => pyContains "✓".data r.data))
    ∧ (∀ (dispatch : Nat → DispatchOutcome) (steps : List PlanStep) (k : Nat)
          (st : PlanStep), steps[k]? = some st →
        (execute_plan dispatch steps).2[k]?
          = some (stepResult steps.length (1 + k) st (dispatch (1 + k))))
    ∧ (∀ (n i : Nat) (st : PlanStep) (m : String), stepKnown st = true →
        stepResult n i st (.exc m)
          = s!"✗ Step {i}: " ++ String.mk (m.data.take 100))
    ∧ (∀ (n i : Nat) (st : PlanStep) (outcome : DispatchOutcome),
        stepKnown st = false →
        stepResult n i st outcome
          = s!"❌ Step {i}/{n}: Unknown action '{pyShowOpt st.action}'")
    ∧ execute_plan
        (fun i => if i = 2 then .exc "boom" else .ret true s!"done {i}")
        [⟨some "wait"⟩, ⟨some "press_key"⟩, ⟨some "screenshot"⟩]
      = (false, ["✓ Step 1: done 1", "✗ Step 2: boom", "✓ Step 3: done 3"]) := by
  refine ⟨?_, fun dispatch steps => rfl, ?_, ?_, ?_, by decide⟩
  · intro dispatch steps
    exact execPlanAux_length dispatch steps.length steps 1
  · intro dispatch steps k st h
    exact execPlanAux_get? dispatch steps.length steps 1 k st h
  · intro n i st m h
    unfold stepResult
    rw [if_pos h]
  · intro n i st outcome h
    unfold stepResult
    rw [if_neg (by simp [h])]

/-- C2 witness: the per-step conjuncts applied at concrete inputs — an
unknown action in the middle of a plan is recorded for that step only and the
following step still runs. -/
theorem C2_witness :
    (execute_plan (fun _ => .ret true "ok")
        [⟨some "wait"⟩, ⟨some "fly_to_moon"⟩, ⟨some "scroll"⟩]).2[1]?
      = some "❌ Step 2/3: Unknown action 'fly_to_moon'"
    ∧ (execute_plan (fun _ => .ret true "ok")
        [⟨some "wait"⟩, ⟨some "fly_to_moon"⟩, ⟨some "scroll"⟩]).2[2]?
      = some "✓ Step 3: ok" := by
  constructor
  · have := C2_execute_plan_best_effort.2.2.1 (fun _ => .ret true "ok")
      [⟨some "wait"⟩, ⟨some "fly_to_moon"⟩, ⟨some "scroll"⟩] 1 ⟨some "fly_to_moon"⟩
      (by decide)
    rw [this]
    decide
  · have := C2_execute_plan_best_effort.2.2.1 (fun _ => .ret true "ok")
      [⟨some "wait"⟩, ⟨some "fly_to_moon"⟩, ⟨some "scroll"⟩] 2 ⟨some "scroll"⟩
      (by decide)
    rw [this]
    decide

/-! ## Theorems for claims C3, C4, C5 (template matcher, fast handler, cascade) -/

/-- Helper: one unfolding step of the split scanner. -/
theorem chainSplitAux_succ (fuel : Nat) (cs acc : List Char) :
    chainSplitAux (fuel + 1) cs acc
      = match sepAt cs with
        | some len => acc.reverse :: chainSplitAux fuel (cs.drop len) []
        | none =>
          match cs with
          | [] => [acc.reverse]
          | c :: rest => chainSplitAux fuel rest (c :: acc) := rfl

/-- Helper: the split scanner never produces an empty part list. -/
theorem chainSplitAux_ne_nil : ∀ (fuel : Nat) (cs acc : List Char),
    chainSplitAux fuel cs acc ≠ [] := by
  intro fuel
  induction fuel with
  | zero => intro cs acc; simp [chainSplitAux]
  | succ fuel ih =>
    intro cs acc
    rw [chainSplitAux_succ]
    rcases hsep : sepAt cs with _ | len
    · rcases cs with _ | ⟨c, rest⟩
      · simp
      · exact ih rest (c :: acc)
    · simp

/-- Helper: the split yields at least two parts exactly when some position of
the input starts a `\s+(?:and|then)\s+(?=verb\b)` separator. -/
theorem chainSplitAux_parts_iff : ∀ (fuel : Nat) (cs acc : List Char),
    cs.length < fuel →
    (2 ≤ (chainSplitAux fuel cs acc).length
      ↔ ∃ i, (sepAt (cs.drop i)).isSome = true) := by
  intro fuel
  induction fuel with
  | zero => intro cs acc h; omega
  | succ fuel ih =>
    intro cs acc h
    rw [chainSplitAux_succ]
    rcases hsep : sepAt cs with _ | len
    · rcases cs with _ | ⟨c, rest⟩
      · simp only [List.length_singleton]
        constructor
        · omega
        · rintro ⟨i, hi⟩
          rw [List.drop_nil] at hi
          rw [hsep] at hi
          simp at hi
      · rw [ih rest (c :: acc) (by simp at h ⊢; omega)]
        constructor
        · rintro ⟨j, hj⟩
          exact ⟨j + 1, by rwa [List.drop_succ_cons]⟩
        · rintro ⟨i, hi⟩
          rcases i with _ | j
          · rw [List.drop_zero, hsep] at hi
            simp at hi
          · exact ⟨j, by rwa [List.drop_succ_cons] at hi⟩
    · simp only [List.length_cons]
      have h1 := chainSplitAux_ne_nil fuel (cs.drop len) []
      constructor
      · intro _
        exact ⟨0, by rw [List.drop_zero, hsep]; rfl⟩
      · intro _
        have : chainSplitAux fuel (cs.drop len) [] ≠ [] := h1
        have : 1 ≤ (chainSplitAux fuel (cs.drop len) []).length := by
          rcases hx : chainSplitAux fuel (cs.drop len) [] with _ | ⟨a, b⟩
          · exact absurd hx h1
          · simp
        omega

/-- Helper: a result of the template loop carries one of the ten declared
template actions. -/
theorem matchTemplates_action_mem (cl : List Char) (r : MatchResult)
    (h : matchTemplates cl = some r) :
    r.action ∈ smartTemplates.map Template.action := by
  unfold matchTemplates at h
  obtain ⟨t, ht, hft⟩ := List.exists_of_findSome?_eq_some h
  rcases hre : reSearch t.pat cl with _ | caps
  · rw [hre] at hft
    simp at hft
  · rw [hre] at hft
    simp only [Option.some.injEq] at hft
    have : r.action = t.action := by rw [← hft]
    rw [this]
    exact List.mem_map_of_mem Template.action ht

/-- C4: `SmartTemplateMatcher.match` returns a `chain_execution` action
exactly when some position of the normalized command carries an `and`/`then`
conjunction (between runs of whitespace) whose following word is a command
verb; in particular `match("search gravity and newton")` is a single
`search_files` action with the full query `"gravity and newton"`, while
`match("open chrome and search gravity")` is a `chain_execution` whose
`params.commands` are `["open chrome", "search gravity"]`. -/
theorem C4_chain_split_only_before_command_verb :
    (∀ (cmd : String) (r : MatchResult), smartMatch cmd = some r →
        (r.action = "chain_execution"
          ↔ ∃ i, (sepAt ((pyStrip (pyLower cmd.data)).drop i)).isSome = true))
    ∧ smartMatch "search gravity and newton"
        = some { action := "search_files",
                 params := [("file_type", PVal.str "gravity and newton")] }
    ∧ smartMatch "open chrome and search gravity"
        = some { action := "chain_execution",
                 params := [("commands",
                   PVal.list ["open chrome", "search gravity"])] } := by
  refine ⟨?_, by decide, by decide⟩
  intro cmd r h
  unfold smartMatch at h
  simp only at h
  by_cases hp : 2 ≤ (chainSplitParts (pyStrip (pyLower cmd.data))).length
  · rw [if_pos hp] at h
    simp only [Option.some.injEq] at h
    constructor
    · intro _
      exact (chainSplitAux_parts_iff _ _ _ (by omega)).mp hp
    · intro _
      rw [← h]
  · rw [if_neg hp] at h
    have hmem := matchTemplates_action_mem _ r h
    constructor
    · intro hact
      rw [hact] at hmem
      exact absurd hmem (by decide)
    · intro hex
      exact absurd ((chainSplitAux_parts_iff _ _ _ (by omega)).mpr hex) hp

/-- C4 witness: the characterization applied to the concrete chained command —
its normalized text carries a conjunction followed by a command verb. -/
theorem C4_witness :
    ∃ i, (sepAt ((pyStrip (pyLower "open chrome and search gravity".data)).drop i)).isSome
      = true :=
  (C4_chain_split_only_before_command_verb.1 "open chrome and search gravity" _
    C4_chain_split_only_before_command_verb.2.2).mp rfl

/-- C3 counterexample: `"list downloads folder"` matches the `list_files`
template, yet when the template tier's execution reports failure the router
falls through and a later tier (the instant keyword tier here) runs and
handles the very same command — contradicting the claim that the template
tier's match stops the cascade for every command it matches. -/
theorem C3_counterexample_template_failure_falls_through :
    smartMatch "list downloads folder"
      = some { action := "list_files",
               params := [("location", PVal.str "~/Downloads")] }
    ∧ process_command "list downloads folder"
        { templateExec := false, fastOutcome := fun _ => false,
          instant := true, llmActions := none }
      = RouteResult.instant := ⟨by decide, by decide⟩

/-- C3 (amended): the interpretation tiers are tried in strict priority order
(template matcher, then FastComplexHandler, then instant pattern matching,
then LLM fallback) and the first tier that successfully handles the command
stops the cascade; the template tier stops the cascade only when its
execution succeeds — for a command matching a template (such as
`"list downloads folder"`), a successful template execution wins and no later
tier runs, but when the template's execution fails the cascade continues to
the later tiers. -/
theorem C3_amended_tier_priority :
    (∀ (text : String) (o : TierOracles) (m : MatchResult),
        smartMatch text = some m → o.templateExec = true →
        process_command text o = RouteResult.template m.action)
    ∧ (∀ (text : String) (o : TierOracles),
        (smartMatch text = none ∨ o.templateExec = false) →
        fastHandle text o.fastOutcome = some true →
        process_command text o = RouteResult.fastComplex)
    ∧ (∀ (text : String) (o : TierOracles),
        (smartMatch text = none ∨ o.templateExec = false) →
        fastHandle text o.fastOutcome = some false →
        o.instant = true →
        process_command text o = RouteResult.instant)
    ∧ (∀ (text : String) (o : TierOracles) (actions : List PlanStep),
        (smartMatch text = none ∨ o.templateExec = false) →
        fastHandle text o.fastOutcome = some false →
        o.instant = false →
        o.llmActions = some actions → actions ≠ [] →
        process_command text o = RouteResult.llm actions.length) := by
  refine ⟨?_, ?_, ?_, ?_⟩
  · intro text o m hm hexec
    unfold process_command
    rw [hm, hexec]
    simp
  · intro text o hor hfast
    unfold process_command
    rw [hfast]
    rcases hor with hnone | hexec
    · simp [hnone]
    · rcases smartMatch text with _ | m <;> simp [hexec]
  · intro text o hor hfast hinst
    unfold process_command
    rw [hfast, hinst]
    rcases hor with hnone | hexec
    · simp [hnone]
    · rcases smartMatch text with _ | m <;> simp [hexec]
  · intro text o actions hor hfast hinst hllm hne
    unfold process_command
    rw [hfast, hinst, hllm]
    have hlen : actions.length ≠ 0 := by
      intro h0
      exact hne (List.eq_nil_of_length_eq_zero h0)
    rcases hor with hnone | hexec
    · simp [hnone, hlen]
    · rcases smartMatch text with _ | m <;> simp [hexec, hlen]

/-- C3 witness: a successful template execution on `"list downloads folder"`
handles the command at the template tier and no later tier runs. -/
theorem C3_witness :
    process_command "list downloads folder"
      { templateExec := true, fastOutcome := fun _ => false,
        instant := true, llmActions := none }
      = RouteResult.template "list_files" :=
  C3_amended_tier_priority.1 "list downloads folder" _
    { action := "list_files", params := [("location", PVal.str "~/Downloads")] }
    (by decide) rfl

/-- C5: `FastComplexHandler.handle` has exactly three outcomes — `some false`
iff no pattern is recognized (and only then does the router continue to the
next tier), and on a recognized pattern it returns `some true` on success and
`none` on failure; when it returns `none` (and the template tier did not
already claim the command) the router stops: the result is `fastFailedStop`
for every value of the instant-tier and LLM-tier oracles, so no further tier
runs for that command. -/
theorem C5_fast_handler_tristate_stop :
    (∀ (text : String) (outcome : Fin 4 → Bool),
        fastHandle text outcome = some false
          ↔ fastPatternIndex (pyStrip (pyLower text.data)) = none)
    ∧ (∀ (text : String) (outcome : Fin 4 → Bool) (i : Fin 4),
        fastPatternIndex (pyStrip (pyLower text.data)) = some i →
        fastHandle text outcome = (if outcome i then some true else none))
    ∧ (∀ (text : String) (o : TierOracles),
        (smartMatch text = none ∨ o.templateExec = false) →
        fastHandle text o.fastOutcome = none →
        process_command text o = RouteResult.fastFailedStop) := by
  refine ⟨?_, ?_, ?_⟩
  · intro text outcome
    rcases hidx : fastPatternIndex (pyStrip (pyLower text.data)) with _ | i
    · simp [fastHandle, hidx]
    · simp only [fastHandle, hidx]
      by_cases ho : outcome i = true <;> simp [ho]
  · intro text outcome i hidx
    simp only [fastHandle, hidx]
  · intro text o hor hfast
    unfold process_command
    rw [hfast]
    rcases hor with hnone | hexec
    · simp [hnone]
    · rcases smartMatch text with _ | m <;> simp [hexec]

/-- C5 witness: `"organize downloads"` is recognized by the fast handler
(pattern 2) whose execution fails, the template tier's execution also fails,
and the router stops — even though the instant tier would claim the command
and the LLM oracle has a plan ready. -/
theorem C5_witness :
    process_command "organize downloads"
      { templateExec := false, fastOutcome := fun _ => false,
        instant := true, llmActions := some [{ action := some "wait" }] }
      = RouteResult.fastFailedStop :=
  C5_fast_handler_tristate_stop.2.2 "organize downloads" _ (Or.inr rfl) (by decide)

/-! ## Theorems for claim C8 (LLMController) -/

/-- Whether a parsed JSON value is an array. -/
def jsonIsArr : Json → Bool
  | .arrJ _ => true
  | _ => false

/-- C8 (documenting the code bug): `parse_ambiguous_command` returns `None`
when the model cannot be loaded or inference raises, extracts a JSON array
out of markdown fences or surrounding prose and parses it, and returns `None`
on unparseable output — but it does **not** always return a list: the raw
model output `"5"` parses as the JSON number `5`, which the function returns
as-is, contradicting its declared `Optional[List[Dict[str, Any]]]` return
type and the claim. -/
theorem C8_parse_ambiguous_command_shapes :
    (∀ (infer : Except String String), parse_ambiguous_command false infer = none)
    ∧ (∀ (msg : String), parse_ambiguous_command true (.error msg) = none)
    ∧ parse_ambiguous_command true
        (.ok "```json\n[\x7b\"action\": \"wait\", \"params\": \x7b\"seconds\": 1\x7d\x7d]\n```")
      = some (.arrJ [.objJ [("action", .strJ "wait"),
          ("params", .objJ [("seconds", .numJ 1)])]])
    ∧ parse_ambiguous_command true
        (.ok "Sure! Here is the plan: [1, 2] hope that helps")
      = some (.arrJ [.numJ 1, .numJ 2])
    ∧ parse_ambiguous_command true (.ok "I cannot help with that.") = none
    ∧ parse_ambiguous_command true (.ok "5") = some (.numJ 5)
    ∧ (parse_ambiguous_command true (.ok "5")).map jsonIsArr = some false :=
  ⟨fun _ => rfl, fun _ => rfl, rfl, rfl, rfl, rfl, rfl⟩
